import Mathlib

/-!
A shallow embedding of the plants-database audit script (audit.py) and proofs
about its consistency rules.

The script loads five YAML collections (plants, soil mixes, soil components,
fertilizers, water requirements) and runs seven consistency checks, collecting
critical issues and warnings, then reports and exits with status 1 when any
critical issue exists.

Modelling conventions:
* Python dicts preserving insertion order are modelled as association lists
  `List (String × _)`; key uniqueness, where needed, is an explicit hypothesis.
* A field that may be absent is an `Option`; `dict.get(k, d)` is `Option.getD`.
* Finding messages are modelled as a structured inductive `Finding`, one
  constructor per `append` site in the script, carrying exactly the values the
  script interpolates into the message.
* A rule body that can raise an uncaught exception is modelled with `Option`:
  `none` means the Python code raises and the audit run aborts.
* Python string/number builtins used by the script (`str.split`, `str.lower`,
  `str.upper`, `in`, `int`, `float`) are modelled by the `py*` functions below;
  the models cover ASCII and the basic Cyrillic block, which is the alphabet of
  every literal in the script.  `float` values are modelled as exact decimal
  fractions (`Decimal`), which agrees with IEEE floats on the comparisons the
  script performs for all short decimal literals.
-/

namespace PlantsAudit

/-- Characters treated as whitespace by the model of Python `str.split()` and
by the whitespace stripping of `int()` / `float()`. -/
def pyIsSpace (c : Char) : Bool :=
  c == ' ' || c == '\t' || c == '\n' || c == '\r'

/-- Model of Python `str.lower` on a single character, covering ASCII letters
and the basic Cyrillic block (А..Я, Ё), the alphabet of the script literals. -/
def pyLowerChar (c : Char) : Char :=
  if 'A' ≤ c ∧ c ≤ 'Z' then Char.ofNat (c.toNat + 32)
  else if 'А' ≤ c ∧ c ≤ 'Я' then Char.ofNat (c.toNat + 32)
  else if c = 'Ё' then 'ё'
  else c

/-- Model of Python `str.upper` on a single character, covering ASCII letters
and the basic Cyrillic block. -/
def pyUpperChar (c : Char) : Char :=
  if 'a' ≤ c ∧ c ≤ 'z' then Char.ofNat (c.toNat - 32)
  else if 'а' ≤ c ∧ c ≤ 'я' then Char.ofNat (c.toNat - 32)
  else if c = 'ё' then 'Ё'
  else c

/-- Model of Python `str.lower`. -/
def pyLowerStr (s : String) : String := String.mk (s.data.map pyLowerChar)

/-- Model of Python `str.upper`. -/
def pyUpperStr (s : String) : String := String.mk (s.data.map pyUpperChar)

/-- Whether the character list `needle` is a prefix of `hay`. -/
def charsStartWith : List Char → List Char → Bool
  | [], _ => true
  | _ :: _, [] => false
  | a :: as, b :: bs => a == b && charsStartWith as bs

/-- Whether the character list `needle` occurs contiguously inside `hay`. -/
def charsContain (needle : List Char) : List Char → Bool
  | [] => needle.isEmpty
  | c :: rest => charsStartWith needle (c :: rest) || charsContain needle rest

/-- Model of the Python substring test `needle in hay`. -/
def pyIn (needle hay : String) : Bool := charsContain needle.data hay.data

/-- Helper for `str.split()` (whitespace mode): splits on runs of whitespace
and drops empty tokens.  The accumulator holds the current token reversed. -/
def wsSplit : List Char → List Char → List String
  | [], acc => if acc.isEmpty then [] else [String.mk acc.reverse]
  | c :: rest, acc =>
    if pyIsSpace c then
      if acc.isEmpty then wsSplit rest []
      else String.mk acc.reverse :: wsSplit rest []
    else wsSplit rest (c :: acc)

/-- Model of Python `s.split()` with no separator argument. -/
def pySplitWs (s : String) : List String := wsSplit s.data []

/-- Helper for `str.split(sep)`: splits at every separator occurrence, keeping
empty tokens.  The accumulator holds the current token reversed. -/
def sepSplit (sep : Char) : List Char → List Char → List String
  | [], acc => [String.mk acc.reverse]
  | c :: rest, acc =>
    if c == sep then String.mk acc.reverse :: sepSplit sep rest []
    else sepSplit sep rest (c :: acc)

/-- Model of Python `s.split(sep)` for a single-character separator. -/
def pySplitOn (sep : Char) (s : String) : List String := sepSplit sep s.data []

/-- Numeric value of a list of decimal digit characters. -/
def natOfDigits (cs : List Char) : Nat :=
  cs.foldl (fun n c => n * 10 + (c.toNat - 48)) 0

/-- Value of a nonempty all-digit character list, `none` otherwise. -/
def digitsToNat (cs : List Char) : Option Nat :=
  if cs.isEmpty then none
  else if cs.all Char.isDigit then some (natOfDigits cs) else none

/-- Strip leading and trailing whitespace. -/
def stripWs (cs : List Char) : List Char :=
  ((cs.dropWhile pyIsSpace).reverse.dropWhile pyIsSpace).reverse

/-- Model of Python `int(s)` in base 10: optional surrounding whitespace, an
optional sign, then decimal digits.  (Digit-group underscores are omitted;
the script never feeds them.) -/
def pyInt (s : String) : Option Int :=
  match stripWs s.data with
  | '+' :: rest => (digitsToNat rest).map (fun n => (n : Int))
  | '-' :: rest => (digitsToNat rest).map (fun n => -(n : Int))
  | cs => (digitsToNat cs).map (fun n => (n : Int))

/-- An exact decimal fraction `num / 10 ^ exp`, the model of the `float`
values the script parses from pH range strings. -/
structure Decimal where
  num : Int
  exp : Nat
  deriving DecidableEq, Repr

/-- Exact comparison `a < b` of decimal fractions by cross-multiplication. -/
def Decimal.lt (a b : Decimal) : Bool :=
  a.num * (10 : Int) ^ b.exp < b.num * (10 : Int) ^ a.exp

/-- Exact comparison `a ≤ b` of decimal fractions by cross-multiplication. -/
def Decimal.le (a b : Decimal) : Bool :=
  a.num * (10 : Int) ^ b.exp ≤ b.num * (10 : Int) ^ a.exp

/-- Model of Python `float(s)` restricted to plain decimal literals: optional
surrounding whitespace, optional sign, digits with an optional fractional
part.  (Exponent forms and inf/nan are omitted; the script never feeds them.)
The value is kept as an exact decimal fraction. -/
def pyFloat (s : String) : Option Decimal :=
  let cs := stripWs s.data
  let signAndRest : Int × List Char :=
    match cs with
    | '-' :: rest => (-1, rest)
    | '+' :: rest => (1, rest)
    | _ => (1, cs)
  let sgn := signAndRest.1
  let body := signAndRest.2
  let intPart := body.takeWhile Char.isDigit
  let afterInt := body.dropWhile Char.isDigit
  match afterInt with
  | [] =>
    if intPart.isEmpty then none
    else some { num := sgn * (natOfDigits intPart : Int), exp := 0 }
  | '.' :: fracPart =>
    if fracPart.all Char.isDigit && !(intPart.isEmpty && fracPart.isEmpty) then
      some { num := sgn * ((natOfDigits intPart : Int) * (10 : Int) ^ fracPart.length
                            + (natOfDigits fracPart : Int)),
             exp := fracPart.length }
    else none
  | _ => none

/-! ## Data model

The five YAML collections, as the script reads them after the generic loader.
A missing top-level key yields an empty collection; a missing field is `none`.
-/

/-- The `soil` sub-mapping of a plant. -/
structure Soil where
  mix_number : Option String
  alternative_mix : Option String
  deriving DecidableEq, Repr

/-- The `watering` sub-mapping of a plant. -/
structure Watering where
  method : Option String
  deriving DecidableEq, Repr

/-- The `wick_watering` sub-mapping of a plant.  The inner value models the
Python value of the `recommended` key: `some true` / `some false` for the YAML
booleans and `none` for an explicit YAML null; the outer `Option` is absence
of the key. -/
structure WickWatering where
  recommended : Option (Option Bool)
  deriving DecidableEq, Repr

/-- A plant record. -/
structure Plant where
  name : Option String
  soil : Option Soil
  watering : Option Watering
  wick_watering : Option WickWatering
  deriving DecidableEq, Repr

/-- A soil mix record. -/
structure SoilMix where
  number : Option String
  deriving DecidableEq, Repr

/-- A soil component record. -/
structure Component where
  name : Option String
  deriving DecidableEq, Repr

/-- An individual water requirement record. -/
structure WaterRequirement where
  plant_name : Option String
  group : Option String
  ppm_range : Option String
  ph_range : Option String
  deriving DecidableEq, Repr

/-- A water group record. -/
structure WaterGroup where
  plants : Option (List String)
  deriving DecidableEq, Repr

/-- The dataset bundle: the five collections after loading, in insertion
order.  (The fertilizers file is loaded by the script but read by no check,
so it carries no data the rules can see.) -/
structure Bundle where
  plants : List (String × Plant)
  soil_mixes : List (String × SoilMix)
  basic_substrates : List (String × Component)
  additional_components : List (String × Component)
  individual_requirements : List (String × WaterRequirement)
  water_groups : List (String × WaterGroup)
  deriving DecidableEq, Repr

/-- The bundle in which all collections are empty. -/
def emptyBundle : Bundle :=
  { plants := [], soil_mixes := [], basic_substrates := [],
    additional_components := [], individual_requirements := [],
    water_groups := [] }

/-- One structured finding per message-formatting site of the script, carrying
the values interpolated into the message. -/
inductive Finding where
  | plantBadMix (plant_id mix_number : String)
  | plantAltMixInvalid (plant_id alt_mix : String)
  | plantMissingWater (plant_id : String)
  | waterUnknownPlant (plant_id : String)
  | expectedComponentMissing (comp : String)
  | waterGroupMismatch (plant_name group_id assigned_group : String)
  | waterGroupOrphan (plant_name group_id : String)
  | wickRecommendedNotWick (plant_id method : String)
  | wickNotRecommendedButWick (plant_id : String)
  | ppmReversed (plant_id ppm_range : String)
  | ppmUnusual (plant_id ppm_range : String)
  | ppmUnparsable (plant_id ppm_range : String)
  | phReversed (plant_id ph_range : String)
  | phUnusual (plant_id ph_range : String)
  | phUnparsable (plant_id ph_range : String)
  | duplicateName (name earlier_id later_id : String)
  deriving DecidableEq, Repr

/-- Pointwise concatenation of (issues, warnings) pairs. -/
def pairConcat : List (List Finding × List Finding) → List Finding × List Finding
  | [] => ([], [])
  | (i, w) :: rest =>
    let tail := pairConcat rest
    (i ++ tail.1, w ++ tail.2)

/-! ## Rule 1: plant → soil mix references (`check_plant_soil_references`) -/

/-- Default for an absent `soil` sub-mapping (an empty dict in Python). -/
def defaultSoil : Soil := { mix_number := none, alternative_mix := none }

/-- The set of valid mix numbers: `str(mix_data.get('number', ''))` over all
soil mixes.  The script stores them in a Python set used only for membership
tests, so a duplicate-free order-preserving list is an equivalent model. -/
def validMixes (soil_mixes : List (String × SoilMix)) : List String :=
  soil_mixes.map (fun q => q.2.number.getD "")

/-- The body of the plant loop of `check_plant_soil_references` for a single
plant: the membership check on `mix_number` (→ Issue) and the leading-token
check on `alternative_mix` (→ Warning).  Returns `none` when the Python code
raises: `alt_mix.split()[0]` is an `IndexError` whenever `alt_mix` is a
nonempty string of only whitespace. -/
def psrPlant (valid : List String) (plant_id : String) (plant : Plant) :
    Option (List Finding × List Finding) :=
  let soil := plant.soil.getD defaultSoil
  let mix_number := soil.mix_number.getD ""
  let issues :=
    if mix_number != "" && !(valid.contains mix_number) then
      [Finding.plantBadMix plant_id mix_number]
    else []
  let alt_mix := soil.alternative_mix.getD ""
  if alt_mix != "" then
    match pySplitWs alt_mix with
    | [] => none
    | alt_num :: _ =>
      if alt_num != "" && !(valid.contains alt_num) then
        some (issues, [Finding.plantAltMixInvalid plant_id alt_mix])
      else some (issues, [])
  else some (issues, [])

/-- The plant loop of `check_plant_soil_references`, aborting (`none`) as soon
as one iteration raises. -/
def psrFold (valid : List String) : List (String × Plant) → Option (List Finding × List Finding)
  | [] => some ([], [])
  | (pid, p) :: rest =>
    match psrPlant valid pid p with
    | none => none
    | some (i1, w1) =>
      match psrFold valid rest with
      | none => none
      | some (i2, w2) => some (i1 ++ i2, w1 ++ w2)

/-- Rule 1: `check_plant_soil_references`. -/
def check_plant_soil_references (b : Bundle) : Option (List Finding × List Finding) :=
  psrFold (validMixes b.soil_mixes) b.plants

/-! ## Rule 2: plant ↔ water requirement completeness
(`check_plant_water_references`) -/

/-- Rule 2: `check_plant_water_references`.  The script takes set differences
of the two key sets; the model enumerates each difference in insertion order
(Python set iteration order is unspecified, the findings are the same up to
order). -/
def check_plant_water_references (b : Bundle) : List Finding × List Finding :=
  let plants_set := b.plants.map Prod.fst
  let water_set := b.individual_requirements.map Prod.fst
  let missing_water := plants_set.filter (fun k => !(water_set.contains k))
  let extra_water := water_set.filter (fun k => !(plants_set.contains k))
  (missing_water.map Finding.plantMissingWater,
   extra_water.map Finding.waterUnknownPlant)

/-! ## Rule 3: expected soil components (`check_soil_component_references`) -/

/-- The hard-coded list of expected component display names. -/
def expectedComponents : List String :=
  ["Универсальный грунт Premium",
   "Кокосовый субстрат",
   "Перлит",
   "Вермикулит",
   "Смесь для орхидей",
   "Древесный уголь",
   "Кокос-перлит"]

/-- The nonempty component names drawn from both component categories.  The
script stores them in a Python set consumed only by an `any(...)` test, so a
list is an equivalent model. -/
def componentNames (b : Bundle) : List String :=
  (b.basic_substrates ++ b.additional_components).filterMap
    (fun q =>
      let n := q.2.name.getD ""
      if n != "" then some n else none)

/-- Rule 3: `check_soil_component_references`.  A case-insensitive substring
test of each expected name against every real component name. -/
def check_soil_component_references (b : Bundle) : List Finding × List Finding :=
  ([],
   expectedComponents.filterMap (fun comp =>
     if (componentNames b).any (fun vc => pyIn (pyLowerStr comp) (pyLowerStr vc)) then
       none
     else
       some (Finding.expectedComponentMissing comp)))

/-! ## Rule 4: water group consistency (`check_water_group_consistency`) -/

/-- The expected group label of a water group id:
`group_id.split('_')[-1].upper()`. -/
def expectedGroupOf (group_id : String) : String :=
  pyUpperStr ((pySplitOn '_' group_id).getLastD "")

/-- The first individual requirement whose `plant_name` equals the target
name (the script breaks out of the loop at the first match). -/
def wgFindFirst (individual : List (String × WaterRequirement)) (plant_name : String) :
    Option WaterRequirement :=
  (individual.find? (fun q => q.2.plant_name.getD "" == plant_name)).map Prod.snd

/-- The body of the inner loop of `check_water_group_consistency` for one
(group, listed plant name) pair. -/
def wgPlant (individual : List (String × WaterRequirement)) (group_id plant_name : String) :
    List Finding × List Finding :=
  match wgFindFirst individual plant_name with
  | some entry =>
    let assigned_group := entry.group.getD ""
    if assigned_group != expectedGroupOf group_id then
      ([Finding.waterGroupMismatch plant_name group_id assigned_group], [])
    else ([], [])
  | none => ([], [Finding.waterGroupOrphan plant_name group_id])

/-- Rule 4: `check_water_group_consistency`. -/
def check_water_group_consistency (b : Bundle) : List Finding × List Finding :=
  pairConcat (b.water_groups.map (fun g =>
    pairConcat ((g.2.plants.getD []).map
      (wgPlant b.individual_requirements g.1))))

/-! ## Rule 5: wick watering consistency (`check_wick_watering_consistency`) -/

/-- The warnings the wick-watering check emits for one plant.
`wick.get('recommended', False)` makes the fetched value `some false` when
the key is absent; `none` models an explicit YAML null. -/
def wickWarnings (plant_id : String) (plant : Plant) : List Finding :=
  let wick := plant.wick_watering.getD { recommended := none }
  let watering_method := (plant.watering.getD { method := none }).method.getD ""
  let recommended : Option Bool := wick.recommended.getD (some false)
  let w1 :=
    if recommended == some true && !(pyIn "Фитиль" watering_method)
        && !(pyIn "фитиль" (pyLowerStr watering_method)) then
      [Finding.wickRecommendedNotWick plant_id watering_method]
    else []
  let w2 :=
    if recommended != some true && recommended != none then
      if (pyIn "Фитиль" watering_method || pyIn "фитиль" (pyLowerStr watering_method))
          && !(pyIn "Ручной" watering_method) then
        [Finding.wickNotRecommendedButWick plant_id]
      else []
    else []
  w1 ++ w2

/-- Rule 5: `check_wick_watering_consistency` (warnings only). -/
def check_wick_watering_consistency (b : Bundle) : List Finding × List Finding :=
  ([], (b.plants.map (fun q => wickWarnings q.1 q.2)).flatten)

/-! ## Rule 6: ppm / pH range sanity (`check_ppm_ph_ranges`) -/

/-- Model of `a, b = map(int, s.split('-'))`: exactly two separator-delimited
tokens, both parsing as integers; anything else raises (and the script
catches it). -/
def parseTwoInts (s : String) : Option (Int × Int) :=
  match pySplitOn '-' s with
  | [a, b] =>
    match pyInt a, pyInt b with
    | some x, some y => some (x, y)
    | _, _ => none
  | _ => none

/-- Model of `a, b = map(float, s.split('-'))`. -/
def parseTwoDecimals (s : String) : Option (Decimal × Decimal) :=
  match pySplitOn '-' s with
  | [a, b] =>
    match pyFloat a, pyFloat b with
    | some x, some y => some (x, y)
    | _, _ => none
  | _ => none

/-- The ppm sub-check for one requirement: reversed range → Issue, out of
[0, 500] → Warning, parse failure → Warning. -/
def ppmCheck (plant_id : String) (ppm_range : String) : List Finding × List Finding :=
  if ppm_range != "" && pyIn "-" ppm_range then
    match parseTwoInts ppm_range with
    | some (ppm_min, ppm_max) =>
      ((if ppm_min ≥ ppm_max then [Finding.ppmReversed plant_id ppm_range] else []),
       (if ppm_min < 0 || ppm_max > 500 then [Finding.ppmUnusual plant_id ppm_range] else []))
    | none => ([], [Finding.ppmUnparsable plant_id ppm_range])
  else ([], [])

/-- The pH sub-check for one requirement: reversed range → Issue, out of
[4.0, 8.0] → Warning, parse failure → Warning. -/
def phCheck (plant_id : String) (ph_range : String) : List Finding × List Finding :=
  if ph_range != "" && pyIn "-" ph_range then
    match parseTwoDecimals ph_range with
    | some (ph_min, ph_max) =>
      ((if Decimal.le ph_max ph_min then [Finding.phReversed plant_id ph_range] else []),
       (if Decimal.lt ph_min { num := 4, exp := 0 } || Decimal.lt { num := 8, exp := 0 } ph_max then
          [Finding.phUnusual plant_id ph_range] else []))
    | none => ([], [Finding.phUnparsable plant_id ph_range])
  else ([], [])

/-- The body of the requirement loop of `check_ppm_ph_ranges`: the ppm
sub-check followed by the pH sub-check. -/
def reqCheck (plant_id : String) (req : WaterRequirement) : List Finding × List Finding :=
  let ppm := ppmCheck plant_id (req.ppm_range.getD "")
  let ph := phCheck plant_id (req.ph_range.getD "")
  (ppm.1 ++ ph.1, ppm.2 ++ ph.2)

/-- Rule 6: `check_ppm_ph_ranges`. -/
def check_ppm_ph_ranges (b : Bundle) : List Finding × List Finding :=
  pairConcat (b.individual_requirements.map (fun q => reqCheck q.1 q.2))

/-! ## Rule 7: duplicate plant names (`check_duplicates_and_conflicts`) -/

/-- The single pass of `check_duplicates_and_conflicts`: `seen` is the
name→id dict; the first occurrence of a name is inserted, every later plant
with the same name yields a Warning citing the stored first id. -/
def dupScan : List (String × Plant) → List (String × String) → List Finding
  | [], _ => []
  | (plant_id, plant) :: rest, seen =>
    let name := plant.name.getD ""
    match seen.lookup name with
    | some earlier => Finding.duplicateName name earlier plant_id :: dupScan rest seen
    | none => dupScan rest ((name, plant_id) :: seen)

/-- Rule 7: `check_duplicates_and_conflicts` (warnings only). -/
def check_duplicates_and_conflicts (b : Bundle) : List Finding × List Finding :=
  ([], dupScan b.plants [])

/-! ## Auditor and report -/

/-- The merged audit report: the issue and warning lists in catalog order. -/
structure Report where
  issues : List Finding
  warnings : List Finding
  deriving DecidableEq, Repr

/-- `audit_all`: run the seven checks in the order of the script and merge
their findings.  `none` models the run dying on an uncaught exception. -/
def audit_all (b : Bundle) : Option Report :=
  match check_plant_soil_references b with
  | none => none
  | some (i1, w1) =>
    let r2 := check_plant_water_references b
    let r3 := check_soil_component_references b
    let r4 := check_water_group_consistency b
    let r5 := check_wick_watering_consistency b
    let r6 := check_ppm_ph_ranges b
    let r7 := check_duplicates_and_conflicts b
    some { issues := i1 ++ r2.1 ++ r3.1 ++ r4.1 ++ r5.1 ++ r6.1 ++ r7.1,
           warnings := w1 ++ r2.2 ++ r3.2 ++ r4.2 ++ r5.2 ++ r6.2 ++ r7.2 }

/-- The process exit status of `print_report`: `sys.exit(1)` when any issue
exists, otherwise 0 (the all-clear early return also ends the process with
status 0). -/
def exit_status (r : Report) : Nat :=
  if r.issues.isEmpty then 0 else 1

/-- Modelled from the spec: the structured report exposes a boolean
"is healthy" derived as `Issues.isEmpty()`; the script itself renders only
text, so this flag is not in src. -/
def is_healthy (r : Report) : Bool := r.issues.isEmpty

/-! ## Concrete scenario inputs -/

/-- A bundle whose only plant has a whitespace-only `alternative_mix`. -/
def c2Bundle : Bundle :=
  { emptyBundle with
    plants := [("aloe",
      { name := none,
        soil := some { mix_number := none, alternative_mix := some " " },
        watering := none, wick_watering := none })] }

/-- A bundle whose only plant has no `wick_watering` mapping at all (so the
`recommended` key is absent) and a wick-watering method text. -/
def c3Bundle : Bundle :=
  { emptyBundle with
    plants := [("aloe",
      { name := none, soil := none,
        watering := some { method := some "Фитиль" },
        wick_watering := none })] }

/-- A water requirement whose ppm range is reversed and above the 500 bound,
and whose pH range is reversed and above the 8.0 bound. -/
def c4Req : WaterRequirement :=
  { plant_name := none, group := none,
    ppm_range := some "700-600", ph_range := some "9.5-9.0" }

/-- The individual-requirements collection of the Pothos scenario: a
distractor entry followed by the Pothos entry assigned to group B. -/
def pothosIndividual : List (String × WaterRequirement) :=
  [("fern_req", { plant_name := some "Fern", group := some "A",
                  ppm_range := none, ph_range := none }),
   ("pothos_req", { plant_name := some "Pothos", group := some "B",
                    ppm_range := none, ph_range := none })]

/-- The Pothos scenario bundle: `water_group_a` lists Pothos, whose entry is
assigned to group B. -/
def pothosBundle : Bundle :=
  { emptyBundle with
    individual_requirements := pothosIndividual,
    water_groups := [("water_group_a", { plants := some ["Pothos"] })] }

/-- A plant displaying the name Rose. -/
def rosePlant : Plant :=
  { name := some "Rose", soil := none, watering := none, wick_watering := none }

/-- A plant displaying the name Fern. -/
def fernPlant : Plant :=
  { name := some "Fern", soil := none, watering := none, wick_watering := none }

/-- The duplicate-name scenario bundle: plants A and B both named Rose,
plant C named Fern. -/
def roseFernBundle : Bundle :=
  { emptyBundle with
    plants := [("A", rosePlant), ("B", rosePlant), ("C", fernPlant)] }

/-- A plant whose `wick_watering.recommended` is explicitly false with the
given watering method text. -/
def wickFalsePlant (method : String) : Plant :=
  { name := none, soil := none,
    watering := some { method := some method },
    wick_watering := some { recommended := some (some false) } }

end PlantsAudit

namespace PlantsAudit

/-! ## Claim theorems -/

/-- Claim C1 counterexample: the claim asserts that the empty bundle produces zero
Warnings, but the expected-component check tests seven hard-coded names
against the empty component catalog and emits a Warning for each, so the
warning list of the report is not empty. -/
theorem C1_empty_bundle_warnings_nonzero :
    (audit_all emptyBundle).map Report.warnings ≠ some [] := by
  decide

/-- Claim C1 (amended): on the bundle in which all five collections are empty the
audit completes, produces zero Issues and exactly seven Warnings (one per
hard-coded expected component name), the is-healthy flag is true, and the
process exit status is 0. -/
theorem C1_empty_bundle_report :
    audit_all emptyBundle =
      some { issues := [],
             warnings := expectedComponents.map Finding.expectedComponentMissing } ∧
    expectedComponents.length = 7 ∧
    (audit_all emptyBundle).map is_healthy = some true ∧
    (audit_all emptyBundle).map exit_status = some 0 := by
  decide

/-- Claim C2: the Plant-to-SoilMix rule does not return normally for every value of
`alternative_mix`: on a plant whose `alternative_mix` is the whitespace-only
string consisting of one space, `alt_mix` is truthy but `alt_mix.split()` is
empty, so `alt_mix.split()[0]` raises an uncaught IndexError and the whole
audit run aborts (`none` in the model). -/
theorem C2_soil_rule_raises :
    check_plant_soil_references c2Bundle = none ∧ audit_all c2Bundle = none := by
  decide

/-- Claim C3: the claim (and the spec) say a plant with an absent
`wick_watering.recommended` never yields a finding, but the script fetches
the flag with `wick.get('recommended', False)`, so an absent flag becomes
`False`, passes the `is not None` guard, and a wick-watering method without
the manual keyword is flagged: the rule emits a Warning for such a plant. -/
theorem C3_absent_recommended_warns :
    check_wick_watering_consistency c3Bundle =
      ([], [Finding.wickNotRecommendedButWick "aloe"]) := by
  decide

/-- Claim C4 counterexample: a single requirement entry can produce more than two
findings, and a single sub-check more than one: on the ppm range 700-600 the
ppm sub-check emits both the reversed-range Issue and the out-of-bounds
Warning, and with the pH range 9.5-9.0 the entry produces four findings. -/
theorem C4_four_findings :
    (ppmCheck "p" "700-600").1.length + (ppmCheck "p" "700-600").2.length = 2 ∧
    (reqCheck "p" c4Req).1.length + (reqCheck "p" c4Req).2.length = 4 := by
  decide

/-- Each component of the ppm sub-check result holds at most one finding. -/
theorem ppmCheck_lengths (pid s : String) :
    (ppmCheck pid s).1.length ≤ 1 ∧ (ppmCheck pid s).2.length ≤ 1 := by
  unfold ppmCheck
  repeat' split
  all_goals simp

/-- Each component of the pH sub-check result holds at most one finding. -/
theorem phCheck_lengths (pid s : String) :
    (phCheck pid s).1.length ≤ 1 ∧ (phCheck pid s).2.length ≤ 1 := by
  unfold phCheck
  repeat' split
  all_goals simp

/-- Claim C4 (amended): the two sub-checks are independent — the findings of a
requirement entry are the concatenation of the ppm sub-check (a function of
`ppm_range` alone) and the pH sub-check (a function of `ph_range` alone) —
but each sub-check can produce up to two findings (a reversed-range Issue and
an out-of-bounds Warning can co-occur), so an entry produces at most four
findings, not at most two. -/
theorem C4_subcheck_structure (pid : String) (req : WaterRequirement) :
    (reqCheck pid req).1 =
      (ppmCheck pid (req.ppm_range.getD "")).1 ++ (phCheck pid (req.ph_range.getD "")).1 ∧
    (reqCheck pid req).2 =
      (ppmCheck pid (req.ppm_range.getD "")).2 ++ (phCheck pid (req.ph_range.getD "")).2 ∧
    (ppmCheck pid (req.ppm_range.getD "")).1.length
      + (ppmCheck pid (req.ppm_range.getD "")).2.length ≤ 2 ∧
    (phCheck pid (req.ph_range.getD "")).1.length
      + (phCheck pid (req.ph_range.getD "")).2.length ≤ 2 ∧
    (reqCheck pid req).1.length + (reqCheck pid req).2.length ≤ 4 := by
  obtain ⟨h1, h2⟩ := ppmCheck_lengths pid (req.ppm_range.getD "")
  obtain ⟨h3, h4⟩ := phCheck_lengths pid (req.ph_range.getD "")
  refine ⟨rfl, rfl, by omega, by omega, ?_⟩
  simp only [reqCheck, List.length_append]
  omega

/-- Counting an element in a duplicate-free list of strings. -/
theorem count_eq_one_of_nodup_mem {l : List String} {a : String}
    (hnd : l.Nodup) (h : a ∈ l) : l.count a = 1 := by
  induction l with
  | nil => cases h
  | cons x xs ih =>
    rw [List.nodup_cons] at hnd
    rcases List.mem_cons.mp h with rfl | hmem
    · rw [List.count_cons_self, List.count_eq_zero_of_not_mem hnd.1]
    · have hne : a ≠ x := fun hax => hnd.1 (hax ▸ hmem)
      rw [List.count_cons_of_ne hne, ih hnd.2 hmem]

/-- Counting the image of an element under an injective map of findings. -/
theorem count_map_injection (f : String → Finding) (hf : ∀ x y, f x = f y → x = y)
    (l : List String) (k : String) : (l.map f).count (f k) = l.count k := by
  induction l with
  | nil => rfl
  | cons x xs ih =>
    simp only [List.map_cons, List.count_cons, ih]
    by_cases hxk : x = k
    · subst hxk; simp
    · have hne : ¬f x = f k := fun h => hxk (hf _ _ h)
      simp [hxk, hne]

/-- Boolean membership agrees with propositional membership for strings. -/
theorem contains_iff_mem (l : List String) (a : String) : l.contains a = true ↔ a ∈ l := by
  induction l with
  | nil => simp
  | cons x xs ih => simp [ih]

/-- Counting a key in the insertion-order model of a Python set difference. -/
theorem count_filter_not_contains (l excl : List String) (k : String) (hnd : l.Nodup) :
    (l.filter (fun x => !(excl.contains x))).count k =
      if k ∈ l ∧ k ∉ excl then 1 else 0 := by
  induction l with
  | nil => simp
  | cons x xs ih =>
    rw [List.nodup_cons] at hnd
    obtain ⟨hx, hnd2⟩ := hnd
    rw [List.filter_cons]
    by_cases hpx : x ∈ excl
    · rw [if_neg (by simp [contains_iff_mem, hpx]), ih hnd2]
      by_cases hxk : x = k
      · subst hxk
        simp [hpx]
      · simp [hxk, Ne.symm hxk]
    · rw [if_pos (by simp [contains_iff_mem, hpx]), List.count_cons, ih hnd2]
      by_cases hxk : x = k
      · subst hxk
        simp [hpx, hx]
      · simp [hxk, Ne.symm hxk]

/-- Claim C5: for duplicate-free key collections (Python dict keys are unique), the
completeness rule emits exactly one Issue for a key exactly when it is a plant
key without a matching water-requirement key, exactly one Warning for a key
exactly when it is a water-requirement key without a matching plant key, and
no finding at all when the two key sets coincide — the flagged ids are the
symmetric difference of the key sets. -/
theorem C5_symmetric_difference (b : Bundle) (k : String)
    (hp : (b.plants.map Prod.fst).Nodup)
    (hw : (b.individual_requirements.map Prod.fst).Nodup) :
    ((check_plant_water_references b).1.count (Finding.plantMissingWater k) =
      if k ∈ b.plants.map Prod.fst ∧ k ∉ b.individual_requirements.map Prod.fst
      then 1 else 0) ∧
    ((check_plant_water_references b).2.count (Finding.waterUnknownPlant k) =
      if k ∈ b.individual_requirements.map Prod.fst ∧ k ∉ b.plants.map Prod.fst
      then 1 else 0) ∧
    ((∀ x, x ∈ b.plants.map Prod.fst ↔ x ∈ b.individual_requirements.map Prod.fst) →
      check_plant_water_references b = ([], [])) := by
  refine ⟨?_, ?_, ?_⟩
  · show ((((b.plants.map Prod.fst).filter
        (fun x => !((b.individual_requirements.map Prod.fst).contains x))).map
          Finding.plantMissingWater).count (Finding.plantMissingWater k)) = _
    rw [count_map_injection _ (fun x y h => by injection h) _ k,
        count_filter_not_contains _ _ _ hp]
  · show ((((b.individual_requirements.map Prod.fst).filter
        (fun x => !((b.plants.map Prod.fst).contains x))).map
          Finding.waterUnknownPlant).count (Finding.waterUnknownPlant k)) = _
    rw [count_map_injection _ (fun x y h => by injection h) _ k,
        count_filter_not_contains _ _ _ hw]
  · intro hiff
    have h1 : (b.plants.map Prod.fst).filter
        (fun x => !((b.individual_requirements.map Prod.fst).contains x)) = [] := by
      rw [List.filter_eq_nil_iff]
      intro a ha
      simp [contains_iff_mem, (hiff a).mp ha]
    have h2 : (b.individual_requirements.map Prod.fst).filter
        (fun x => !((b.plants.map Prod.fst).contains x)) = [] := by
      rw [List.filter_eq_nil_iff]
      intro a ha
      simp [contains_iff_mem, (hiff a).mpr ha]
    show ((((b.plants.map Prod.fst).filter
        (fun x => !((b.individual_requirements.map Prod.fst).contains x))).map
          Finding.plantMissingWater),
        (((b.individual_requirements.map Prod.fst).filter
        (fun x => !((b.plants.map Prod.fst).contains x))).map
          Finding.waterUnknownPlant)) = ([], [])
    rw [h1, h2]
    rfl

/-- Witness bundle for C5: plant keys a, b; water-requirement keys b, c. -/
def c5Bundle : Bundle :=
  { emptyBundle with
    plants := [("a", rosePlant), ("b", fernPlant)],
    individual_requirements :=
      [("b", { plant_name := none, group := none, ppm_range := none, ph_range := none }),
       ("c", { plant_name := none, group := none, ppm_range := none, ph_range := none })] }

/-- Witness for C5 at the concrete bundle with plant keys a, b and
water-requirement keys b, c, probing key a. -/
theorem C5_witness :
    ((check_plant_water_references c5Bundle).1.count (Finding.plantMissingWater "a") =
      if "a" ∈ c5Bundle.plants.map Prod.fst ∧
         "a" ∉ c5Bundle.individual_requirements.map Prod.fst then 1 else 0) ∧
    ((check_plant_water_references c5Bundle).2.count (Finding.waterUnknownPlant "a") =
      if "a" ∈ c5Bundle.individual_requirements.map Prod.fst ∧
         "a" ∉ c5Bundle.plants.map Prod.fst then 1 else 0) ∧
    ((∀ x, x ∈ c5Bundle.plants.map Prod.fst ↔
        x ∈ c5Bundle.individual_requirements.map Prod.fst) →
      check_plant_water_references c5Bundle = ([], [])) :=
  C5_symmetric_difference c5Bundle "a" (by decide) (by decide)

/-- The mix number of a plant as the script reads it. -/
def plantMixNumber (p : Plant) : String := (p.soil.getD defaultSoil).mix_number.getD ""

/-- The condition under which the membership check flags a plant: a non-empty
mix number that is not among the soil-mix numbers. -/
def plantBadMixCond (valid : List String) (p : Plant) : Bool :=
  plantMixNumber p != "" && !(valid.contains (plantMixNumber p))

/-- Whether a finding is a bad-mix Issue naming the given plant id. -/
def badMixNaming (plant_id : String) : Finding → Bool
  | Finding.plantBadMix q _ => q == plant_id
  | _ => false

/-- When one loop iteration of the soil-reference rule completes, its Issue
component is the bad-mix Issue exactly under `plantBadMixCond`. -/
theorem psrPlant_issues {valid : List String} {qid : String} {q : Plant}
    {i w : List Finding} (h : psrPlant valid qid q = some (i, w)) :
    i = if plantBadMixCond valid q then
          [Finding.plantBadMix qid (plantMixNumber q)]
        else [] := by
  simp only [psrPlant, plantBadMixCond, plantMixNumber] at h ⊢
  repeat' split at h
  all_goals simp_all

/-- The count of Issues naming a plant id, from one loop iteration. -/
theorem psrPlant_countP {valid : List String} {qid : String} {q : Plant}
    {i w : List Finding} (h : psrPlant valid qid q = some (i, w)) (pid : String) :
    i.countP (badMixNaming pid) =
      if qid = pid ∧ plantBadMixCond valid q = true then 1 else 0 := by
  rw [psrPlant_issues h]
  by_cases hc : plantBadMixCond valid q = true
  · by_cases hq : qid = pid
    · subst hq; simp [hc, badMixNaming]
    · simp [hc, hq, badMixNaming]
  · simp [hc]

/-- No Issue of the soil-reference rule names a plant id outside the key list
it was run on. -/
theorem psrFold_countP_zero {valid : List String} {plants : List (String × Plant)}
    {res : List Finding × List Finding} (h : psrFold valid plants = some res)
    {pid : String} (hpid : pid ∉ plants.map Prod.fst) :
    res.1.countP (badMixNaming pid) = 0 := by
  induction plants generalizing res with
  | nil =>
    simp only [psrFold, Option.some.injEq] at h
    rw [← h]
    rfl
  | cons hd tl ih =>
    obtain ⟨qid, q⟩ := hd
    simp only [psrFold] at h
    cases hp : psrPlant valid qid q with
    | none => rw [hp] at h; exact Option.noConfusion h
    | some pr =>
      obtain ⟨i1, w1⟩ := pr
      rw [hp] at h
      cases hf : psrFold valid tl with
      | none => rw [hf] at h; exact Option.noConfusion h
      | some pr2 =>
        obtain ⟨i2, w2⟩ := pr2
        rw [hf] at h
        simp only [Option.some.injEq] at h
        rw [← h]
        simp only [List.map_cons, List.mem_cons, not_or] at hpid
        rw [List.countP_append, psrPlant_countP hp pid,
            if_neg (fun hh => hpid.1 hh.1.symm), ih hf hpid.2]

/-- For a bundle with duplicate-free plant keys on which the soil-reference
rule completes, the count of Issues naming a given plant. -/
theorem psrFold_countP {valid : List String} {plants : List (String × Plant)}
    {res : List Finding × List Finding} (h : psrFold valid plants = some res)
    (hnd : (plants.map Prod.fst).Nodup) {pid : String} {p : Plant}
    (hmem : (pid, p) ∈ plants) :
    res.1.countP (badMixNaming pid) =
      if plantBadMixCond valid p = true then 1 else 0 := by
  induction plants generalizing res with
  | nil => cases hmem
  | cons hd tl ih =>
    obtain ⟨qid, q⟩ := hd
    simp only [psrFold] at h
    cases hp : psrPlant valid qid q with
    | none => rw [hp] at h; exact Option.noConfusion h
    | some pr =>
      obtain ⟨i1, w1⟩ := pr
      rw [hp] at h
      cases hf : psrFold valid tl with
      | none => rw [hf] at h; exact Option.noConfusion h
      | some pr2 =>
        obtain ⟨i2, w2⟩ := pr2
        rw [hf] at h
        simp only [Option.some.injEq] at h
        rw [← h]
        simp only [List.map_cons, List.nodup_cons] at hnd
        rw [List.countP_append]
        rcases List.mem_cons.mp hmem with heq | htl
        · obtain ⟨rfl, rfl⟩ : pid = qid ∧ p = q :=
            ⟨congrArg Prod.fst heq, congrArg Prod.snd heq⟩
          rw [psrPlant_countP hp pid, psrFold_countP_zero hf hnd.1]
          simp
        · have hq : ¬(qid = pid ∧ plantBadMixCond valid q = true) := by
            intro hh
            exact hnd.1 (hh.1 ▸ List.mem_map_of_mem Prod.fst htl)
          rw [psrPlant_countP hp pid, if_neg hq, ih hf hnd.2 htl]
          simp

/-- Claim C6: on any bundle with duplicate-free plant keys for which the
soil-reference rule completes, a plant with a non-empty mix number absent
from the soil-mix number set is named by exactly one bad-mix Issue, and a
plant with an empty (or absent) or valid mix number is named by none. -/
theorem C6_mix_membership (b : Bundle) (pid : String) (p : Plant)
    (res : List Finding × List Finding)
    (hrun : check_plant_soil_references b = some res)
    (hnd : (b.plants.map Prod.fst).Nodup)
    (hmem : (pid, p) ∈ b.plants) :
    res.1.countP (badMixNaming pid) =
      if plantBadMixCond (validMixes b.soil_mixes) p = true then 1 else 0 :=
  psrFold_countP hrun hnd hmem

/-- Witness bundle for C6: one plant with mix number 99, valid numbers 1, 2. -/
def c6Bundle : Bundle :=
  { emptyBundle with
    plants := [("aloe",
      { name := none,
        soil := some { mix_number := some "99", alternative_mix := none },
        watering := none, wick_watering := none })],
    soil_mixes := [("mix_1", { number := some "1" }), ("mix_2", { number := some "2" })] }

/-- Witness for C6 at the concrete bundle: the dangling mix number 99 is
named by exactly one Issue. -/
theorem C6_witness :
    (c6Bundle.plants.head?.map Prod.snd).map plantMixNumber = some "99" ∧
    ∃ res, check_plant_soil_references c6Bundle = some res ∧
      res.1.countP (badMixNaming "aloe") = 1 := by
  refine ⟨by decide, ([Finding.plantBadMix "aloe" "99"], []), by decide, ?_⟩
  have := C6_mix_membership c6Bundle "aloe"
    { name := none,
      soil := some { mix_number := some "99", alternative_mix := none },
      watering := none, wick_watering := none }
    ([Finding.plantBadMix "aloe" "99"], []) (by decide) (by decide) (by decide)
  rw [this, if_pos (by decide)]

/-- Claim C8: the process exit status is 1 exactly when the report is unhealthy and
0 exactly when it is healthy; the is-healthy flag is the emptiness of the
issue list; and the exit status ignores the warning list entirely. -/
theorem C8_exit_iff_issues (issues warnings : List Finding) :
    (exit_status { issues := issues, warnings := warnings } = 1 ↔
      is_healthy { issues := issues, warnings := warnings } = false) ∧
    (exit_status { issues := issues, warnings := warnings } = 0 ↔
      is_healthy { issues := issues, warnings := warnings } = true) ∧
    (is_healthy { issues := issues, warnings := warnings } = true ↔ issues = []) ∧
    exit_status { issues := issues, warnings := warnings } =
      exit_status { issues := issues, warnings := [] } := by
  cases issues <;> simp [exit_status, is_healthy]

/-- The first-match lookup of the water-group rule, on a list decomposed
around its first matching entry: the entries before it all fail the name
test, so the rule selects exactly this entry. -/
theorem wgFindFirst_decomposed (pre post : List (String × WaterRequirement))
    (pid : String) (req : WaterRequirement) (name : String)
    (hpre : ∀ q ∈ pre, q.2.plant_name.getD "" ≠ name)
    (hreq : req.plant_name.getD "" = name) :
    wgFindFirst (pre ++ (pid, req) :: post) name = some req := by
  unfold wgFindFirst
  rw [List.find?_append]
  have h1 : pre.find? (fun q => q.2.plant_name.getD "" == name) = none := by
    rw [List.find?_eq_none]
    intro q hq
    simpa using hpre q hq
  rw [h1, Option.none_or, List.find?_cons_of_pos _ (by simpa using hreq)]
  rfl

/-- Claim C7: the water-group rule matches a listed plant name against the first
individual requirement bearing that `plant_name`; on a mismatch with the
upper-cased last-underscore suffix of the group id it yields exactly the one
mismatch Issue, on a missing entry exactly the one orphan Warning; and the
Pothos scenario (listed in water_group_a, assigned group B) yields exactly
one mismatch Issue and nothing else. -/
theorem C7_water_group (individual : List (String × WaterRequirement)) (gid name : String) :
    (∀ pre pid req post,
        individual = pre ++ (pid, req) :: post →
        (∀ q ∈ pre, q.2.plant_name.getD "" ≠ name) →
        req.plant_name.getD "" = name →
        wgPlant individual gid name =
          if req.group.getD "" != expectedGroupOf gid then
            ([Finding.waterGroupMismatch name gid (req.group.getD "")], [])
          else ([], [])) ∧
    ((∀ q ∈ individual, q.2.plant_name.getD "" ≠ name) →
        wgPlant individual gid name = ([], [Finding.waterGroupOrphan name gid])) ∧
    check_water_group_consistency pothosBundle =
      ([Finding.waterGroupMismatch "Pothos" "water_group_a" "B"], []) := by
  refine ⟨?_, ?_, by decide⟩
  · intro pre pid req post hdec hpre hreq
    subst hdec
    unfold wgPlant
    rw [wgFindFirst_decomposed pre post pid req name hpre hreq]
  · intro hnone
    have hfind : wgFindFirst individual name = none := by
      unfold wgFindFirst
      rw [List.find?_eq_none.mpr (fun q hq => by simpa using hnone q hq)]
      rfl
    unfold wgPlant
    rw [hfind]

/-- Witness for C7 at the Pothos scenario: the entry list decomposes around
the Pothos entry, and the rule emits exactly the one mismatch Issue. -/
theorem C7_witness :
    wgPlant pothosIndividual "water_group_a" "Pothos" =
      ([Finding.waterGroupMismatch "Pothos" "water_group_a" "B"], []) :=
  ((C7_water_group pothosIndividual "water_group_a" "Pothos").1
      [("fern_req", { plant_name := some "Fern", group := some "A",
                      ppm_range := none, ph_range := none })]
      "pothos_req"
      { plant_name := some "Pothos", group := some "B",
        ppm_range := none, ph_range := none }
      [] rfl (by decide) rfl).trans (by decide)

/-- The id of the first plant carrying a display name, in iteration order. -/
def firstIdFor (plants : List (String × Plant)) (name : String) : Option String :=
  (plants.find? (fun q => q.2.name.getD "" == name)).map Prod.fst

/-- The name-to-id dict of the duplicate scan after processing a list of
plants: the first plant of each new name is inserted, later ones are not. -/
def seenAfter : List (String × Plant) → List (String × String) → List (String × String)
  | [], seen => seen
  | (plant_id, plant) :: rest, seen =>
    let name := plant.name.getD ""
    match seen.lookup name with
    | some _ => seenAfter rest seen
    | none => seenAfter rest ((name, plant_id) :: seen)

/-- The duplicate scan splits over list append, threading the dict. -/
theorem dupScan_append (xs ys : List (String × Plant)) (seen : List (String × String)) :
    dupScan (xs ++ ys) seen = dupScan xs seen ++ dupScan ys (seenAfter xs seen) := by
  induction xs generalizing seen with
  | nil => rfl
  | cons hd tl ih =>
    obtain ⟨pid, p⟩ := hd
    simp only [List.cons_append, dupScan, seenAfter]
    cases h : seen.lookup (p.name.getD "") with
    | some e => simp [h, ih]
    | none => simp [h, ih]

/-- Unfolding the first-bearer lookup over a cons cell. -/
theorem firstIdFor_cons (pid : String) (p : Plant) (tl : List (String × Plant))
    (name : String) :
    firstIdFor ((pid, p) :: tl) name =
      if p.name.getD "" == name then some pid else firstIdFor tl name := by
  unfold firstIdFor
  by_cases hb : (p.name.getD "" == name) = true
  · rw [@List.find?_cons_of_pos (String × Plant) (fun q => q.2.name.getD "" == name)
        (pid, p) tl hb, if_pos hb]
    rfl
  · rw [@List.find?_cons_of_neg (String × Plant) (fun q => q.2.name.getD "" == name)
        (pid, p) tl hb, if_neg hb]

/-- Looking a name up in the dict after a scan prefix: an already-present
binding wins, otherwise the name maps to the id of its first bearer in the
prefix. -/
theorem lookup_seenAfter (xs : List (String × Plant)) (seen : List (String × String))
    (name : String) :
    (seenAfter xs seen).lookup name = (seen.lookup name).or (firstIdFor xs name) := by
  induction xs generalizing seen with
  | nil => simp [seenAfter, firstIdFor, Option.or_none]
  | cons hd tl ih =>
    obtain ⟨pid, p⟩ := hd
    simp only [seenAfter]
    cases h : seen.lookup (p.name.getD "") with
    | some e =>
      show (seenAfter tl seen).lookup name =
        (seen.lookup name).or (firstIdFor ((pid, p) :: tl) name)
      rw [ih, firstIdFor_cons]
      by_cases hb : (p.name.getD "" == name) = true
      · have hname : p.name.getD "" = name := by simpa using hb
        rw [← hname, h]
        simp [hb]
      · rw [Bool.not_eq_true] at hb
        rw [hb]
        simp
    | none =>
      show (seenAfter tl ((p.name.getD "", pid) :: seen)).lookup name =
        (seen.lookup name).or (firstIdFor ((pid, p) :: tl) name)
      rw [ih, List.lookup_cons, firstIdFor_cons]
      by_cases hb : (name == p.name.getD "") = true
      · have hname : name = p.name.getD "" := by simpa using hb
        subst hname
        simp [h]
      · rw [Bool.not_eq_true] at hb
        rw [hb]
        have hbs : (p.name.getD "" == name) = false := by
          rw [beq_eq_false_iff_ne] at hb ⊢
          exact fun hh => hb hh.symm
        rw [hbs]
        simp

/-- Every duplicate-name Warning cites as later id the key of the plant that
triggered it, so a scan over plants whose keys avoid `pid` emits no Warning
with later id `pid`. -/
theorem dupScan_count_zero (n e pid : String) (l : List (String × Plant))
    (seen : List (String × String)) (hpid : pid ∉ l.map Prod.fst) :
    (dupScan l seen).count (Finding.duplicateName n e pid) = 0 := by
  induction l generalizing seen with
  | nil => rfl
  | cons hd tl ih =>
    obtain ⟨qid, q⟩ := hd
    simp only [List.map_cons, List.mem_cons, not_or] at hpid
    simp only [dupScan]
    cases h : seen.lookup (q.name.getD "") with
    | some earlier =>
      show (Finding.duplicateName (q.name.getD "") earlier qid :: dupScan tl seen).count
        (Finding.duplicateName n e pid) = 0
      rw [List.count_cons_of_ne ?hne, ih _ hpid.2]
      case hne =>
        intro hh
        injection hh with h1 h2 h3
        exact hpid.1 h3
    | none =>
      show (dupScan tl ((q.name.getD "", qid) :: seen)).count
        (Finding.duplicateName n e pid) = 0
      exact ih _ hpid.2

/-- Claim C9: the duplicate-name rule, on plants decomposed as a prefix, one plant,
and a suffix with duplicate-free keys: when some prefix plant already bears
that plant's display name, exactly one Warning is emitted citing the first
bearer as earlier id and this plant as later id; when no prefix plant bears
the name, no Warning citing this plant as later id is emitted at all; and on
the concrete plants A: Rose, B: Rose, C: Fern the rule emits exactly the one
Warning citing A and B. -/
theorem C9_duplicate_names (pre : List (String × Plant)) (pid : String) (p : Plant)
    (post : List (String × Plant))
    (hnd : ((pre ++ (pid, p) :: post).map Prod.fst).Nodup) :
    (∀ fid, firstIdFor pre (p.name.getD "") = some fid →
       (check_duplicates_and_conflicts
           { emptyBundle with plants := pre ++ (pid, p) :: post }).2.count
         (Finding.duplicateName (p.name.getD "") fid pid) = 1) ∧
    (firstIdFor pre (p.name.getD "") = none →
       ∀ n e, Finding.duplicateName n e pid ∉
         (check_duplicates_and_conflicts
             { emptyBundle with plants := pre ++ (pid, p) :: post }).2) ∧
    (check_duplicates_and_conflicts roseFernBundle).2 =
      [Finding.duplicateName "Rose" "A" "B"] := by
  have hnd2 : (pid :: (pre.map Prod.fst ++ post.map Prod.fst)).Nodup := by
    rw [← List.nodup_middle]
    simpa using hnd
  rw [List.nodup_cons] at hnd2
  have hpre : pid ∉ pre.map Prod.fst := fun hh => hnd2.1 (List.mem_append_left _ hh)
  have hpost : pid ∉ post.map Prod.fst := fun hh => hnd2.1 (List.mem_append_right _ hh)
  have hlook : (seenAfter pre []).lookup (p.name.getD "") =
      firstIdFor pre (p.name.getD "") := by
    rw [lookup_seenAfter]
    rfl
  refine ⟨?_, ?_, by decide⟩
  · intro fid hfid
    show (dupScan (pre ++ (pid, p) :: post) []).count
      (Finding.duplicateName (p.name.getD "") fid pid) = 1
    rw [dupScan_append, List.count_append, dupScan_count_zero _ _ _ _ _ hpre]
    simp only [dupScan]
    rw [hlook.trans hfid]
    show 0 + (Finding.duplicateName (p.name.getD "") fid pid ::
      dupScan post (seenAfter pre [])).count
        (Finding.duplicateName (p.name.getD "") fid pid) = 1
    rw [List.count_cons_self, dupScan_count_zero _ _ _ _ _ hpost]
  · intro hfid n e
    show Finding.duplicateName n e pid ∉ dupScan (pre ++ (pid, p) :: post) []
    rw [← List.count_eq_zero, dupScan_append, List.count_append,
        dupScan_count_zero _ _ _ _ _ hpre]
    simp only [dupScan]
    rw [hlook.trans hfid]
    show 0 + (dupScan post ((p.name.getD "", pid) :: seenAfter pre [])).count
      (Finding.duplicateName n e pid) = 0
    rw [dupScan_count_zero _ _ _ _ _ hpost]

/-- Witness for C9 at the Rose/Fern scenario: plant B duplicates the name of
the earlier plant A, yielding exactly one Warning citing A and B. -/
theorem C9_witness :
    (check_duplicates_and_conflicts roseFernBundle).2.count
      (Finding.duplicateName "Rose" "A" "B") = 1 :=
  (C9_duplicate_names [("A", rosePlant)] "B" rosePlant [("C", fernPlant)]
      (by decide)).1 "A" (by decide)

/-- Claim C10: for a plant whose `recommended` is explicitly false and whose method
text contains the wick keyword in any letter case (its lower-casing contains
the canonical lowercase keyword), the Warning is emitted unless the method
contains the manual keyword in its exact canonical capitalisation: the
carve-out tests the raw string, while wick detection tests the lowered one. -/
theorem C10_manual_carveout_case_sensitive (pid method : String)
    (hf : pyIn "фитиль" (pyLowerStr method) = true) :
    wickWarnings pid (wickFalsePlant method) =
      if pyIn "Ручной" method then [] else [Finding.wickNotRecommendedButWick pid] := by
  unfold wickWarnings wickFalsePlant
  cases h : pyIn "Ручной" method <;> simp [hf, h]

/-- Witness for C10: with method text containing the wick keyword in upper
case and the manual keyword only in lower case, the Warning is produced. -/
theorem C10_witness :
    wickWarnings "aloe" (wickFalsePlant "ФИТИЛЬ ручной полив") =
      [Finding.wickNotRecommendedButWick "aloe"] :=
  (C10_manual_carveout_case_sensitive "aloe" "ФИТИЛЬ ручной полив" (by decide)).trans
    (by decide)

end PlantsAudit
